import Mathlib

/-!
Shallow embedding of `src/function.go` from thoughtgears/firestore-backup.

The program is an HTTP handler: it reads the request body, parses it into a
`backupRequest` record, validates it, creates a Firestore admin client, and
dispatches on the action string to either an export (`backup`) or an import
(`restore`) long-running operation.

The embedding models the effectful boundary explicitly:
  - reading and JSON-decoding the body is abstracted into `BodyOutcome`
    (an I/O read error, a JSON unmarshal error, or a parsed record);
  - the external admin service is a `FirestoreAdminClient`, a pair of
    functions giving the outcome each export or import request would receive
    (submission error, error while waiting for the operation, or success);
  - the handler `function` returns the HTTP response it writes together with
    a trace of the events it performed (validation, client creation, export
    and import calls), so that "invokes exactly once" and "no external call"
    are statable.

String formatting of resource names, storage URIs and error messages follows
the Go source literally, including its `fmt.Errorf` wrapper texts.
-/

namespace FirestoreBackup

/-- The request record `backupRequest` of src/function.go: action, collection
list, project identifier, bucket. -/
structure BackupRequest where
  Action : String
  Collections : List String
  ProjectId : String
  Bucket : String
deriving DecidableEq

/-- Argument record of the admin client's `ExportDocuments` call, as built in
`backup` (src/function.go lines 82-86). -/
structure ExportDocumentsRequest where
  Name : String
  CollectionIds : List String
  OutputUriPrefix : String
deriving DecidableEq

/-- Argument record of the admin client's `ImportDocuments` call, as built in
`restore` (src/function.go lines 104-108). -/
structure ImportDocumentsRequest where
  Name : String
  CollectionIds : List String
  InputUriPrefix : String
deriving DecidableEq

/-- Outcome of one long-running external operation: the submission itself can
fail, the wait for completion can fail, or both succeed. -/
inductive OpOutcome where
  | submitErr (e : String)
  | waitErr (e : String)
  | ok
deriving DecidableEq

/-- Behaviour of the external Firestore admin service: the outcome each
export or import request would receive if invoked. -/
structure FirestoreAdminClient where
  exportOutcome : ExportDocumentsRequest → OpOutcome
  importOutcome : ImportDocumentsRequest → OpOutcome

/-- One observable step the handler performs after parsing. -/
inductive Event where
  | validateCall (r : BackupRequest) (result : Option String)
  | clientCreate (result : Option String)
  | exportCall (req : ExportDocumentsRequest) (outcome : OpOutcome)
  | importCall (req : ImportDocumentsRequest) (outcome : OpOutcome)
deriving DecidableEq

/-- Result of `io.ReadAll` plus `json.Unmarshal` on the request body: an I/O
read failure, a JSON decode failure, or the parsed record. -/
inductive BodyOutcome where
  | readErr (e : String)
  | parseErr (e : String)
  | parsed (req : BackupRequest)
deriving DecidableEq

/-- Everything outside the handler's own logic: the body outcome, whether
`NewFirestoreAdminClient` fails (`some` error) or succeeds (`none`), and the
external service's behaviour. -/
structure HandlerInput where
  body : BodyOutcome
  clientErr : Option String
  client : FirestoreAdminClient

/-- The HTTP response the handler writes: status code and body text. A Go
handler that returns without writing gets status 200 and an empty body. -/
structure Response where
  status : Nat
  body : String
deriving DecidableEq

/-- `fmt.Sprintf("projects/%s/databases/(default)", projectId)`. -/
def databaseName (projectId : String) : String :=
  "projects/" ++ projectId ++ "/databases/(default)"

/-- `fmt.Sprintf("gs://%s/firestore-backup", bucket)`. -/
def storageUri (bucket : String) : String :=
  "gs://" ++ bucket ++ "/firestore-backup"

/-- `validate` of src/function.go lines 121-143: `some msg` is a returned
error, `none` is nil. The checks appear in source order. -/
def validate (r : BackupRequest) : Option String :=
  if r.ProjectId = "" then some "project is required"
  else if r.Bucket = "" then some "bucket is required"
  else if r.Action = "" then some "action is required"
  else if r.Action ≠ "backup" ∧ r.Action ≠ "restore" then
    some "action must be either backup or restore"
  else if r.Action = "backup" ∧ r.Bucket = "" then
    some "bucket is required when action is backup"
  else none

/-- `backup` of src/function.go lines 81-96: builds the export request, calls
`ExportDocuments`, waits, and wraps either failure in
"error backing up firestore database: ". Returns the error (or `none`) and
the external calls made. -/
def backup (r : BackupRequest) (client : FirestoreAdminClient) :
    Option String × List Event :=
  let req : ExportDocumentsRequest :=
    ⟨databaseName r.ProjectId, r.Collections, storageUri r.Bucket⟩
  match client.exportOutcome req with
  | OpOutcome.submitErr e =>
      (some ("error backing up firestore database: " ++ e),
        [Event.exportCall req (OpOutcome.submitErr e)])
  | OpOutcome.waitErr e =>
      (some ("error backing up firestore database: " ++ e),
        [Event.exportCall req (OpOutcome.waitErr e)])
  | OpOutcome.ok => (none, [Event.exportCall req OpOutcome.ok])

/-- `restore` of src/function.go lines 103-118: builds the import request,
calls `ImportDocuments`, waits. A submission failure is wrapped in
"error restoring firestore database: "; a wait failure is wrapped in
"error backing up firestore database: " (sic, line 114 of the source). -/
def restore (r : BackupRequest) (client : FirestoreAdminClient) :
    Option String × List Event :=
  let req : ImportDocumentsRequest :=
    ⟨databaseName r.ProjectId, r.Collections, storageUri r.Bucket⟩
  match client.importOutcome req with
  | OpOutcome.submitErr e =>
      (some ("error restoring firestore database: " ++ e),
        [Event.importCall req (OpOutcome.submitErr e)])
  | OpOutcome.waitErr e =>
      (some ("error backing up firestore database: " ++ e),
        [Event.importCall req (OpOutcome.waitErr e)])
  | OpOutcome.ok => (none, [Event.importCall req OpOutcome.ok])

/-- The `switch req.Action` of src/function.go lines 59-72. The source cases
are the literal strings "back" and "restore"; an unmatched action falls
through with no error and no call. -/
def dispatch (req : BackupRequest) (client : FirestoreAdminClient) :
    Option String × List Event :=
  if req.Action = "back" then backup req client
  else if req.Action = "restore" then restore req client
  else (none, [])

/-- `function` of src/function.go lines 30-73: read body, unmarshal, validate,
create the admin client, dispatch on the action. Returns the HTTP response
and the trace of events performed. -/
def function (i : HandlerInput) : Response × List Event :=
  match i.body with
  | BodyOutcome.readErr e => (⟨500, e⟩, [])
  | BodyOutcome.parseErr e => (⟨500, e⟩, [])
  | BodyOutcome.parsed req =>
    match validate req with
    | some e => (⟨400, e⟩, [Event.validateCall req (some e)])
    | none =>
      match i.clientErr with
      | some e =>
          (⟨500, e⟩, [Event.validateCall req none, Event.clientCreate (some e)])
      | none =>
        match dispatch req i.client with
        | (some e, calls) =>
            (⟨500, e⟩,
              Event.validateCall req none :: Event.clientCreate none :: calls)
        | (none, calls) =>
            (⟨200, ""⟩,
              Event.validateCall req none :: Event.clientCreate none :: calls)

/-- Whether an event is a call to the external service. -/
def isExternalCall : Event → Bool
  | Event.exportCall _ _ => true
  | Event.importCall _ _ => true
  | _ => false

/-- The external calls of a trace. -/
def externalCalls (trace : List Event) : List Event :=
  List.filter isExternalCall trace

/-- The underlying error of a failed external call, `none` for anything
else. -/
def failedCallError : Event → Option String
  | Event.exportCall _ (OpOutcome.submitErr e) => some e
  | Event.exportCall _ (OpOutcome.waitErr e) => some e
  | Event.importCall _ (OpOutcome.submitErr e) => some e
  | Event.importCall _ (OpOutcome.waitErr e) => some e
  | _ => none

/-- A client on which every export and import succeeds. -/
def alwaysOk : FirestoreAdminClient :=
  ⟨fun _ => OpOutcome.ok, fun _ => OpOutcome.ok⟩

/-- A client on which every submission fails with "rpc error". -/
def failSubmit : FirestoreAdminClient :=
  ⟨fun _ => OpOutcome.submitErr "rpc error",
    fun _ => OpOutcome.submitErr "rpc error"⟩

/-- A client on which every submission succeeds and every wait fails with
"deadline exceeded". -/
def failWait : FirestoreAdminClient :=
  ⟨fun _ => OpOutcome.waitErr "deadline exceeded",
    fun _ => OpOutcome.waitErr "deadline exceeded"⟩

/-- A valid backup request: action "backup", project "p", bucket "b". -/
def backupReq : BackupRequest :=
  ⟨"backup", ["users"], "p", "b"⟩

/-- Claim C1, evaluated at the failing input: the parsed request with action
"backup" passes validation, yet the handler makes no external call at all and
returns the default 200 with an empty body. The source's dispatch switch
matches the literal "back", never the validated value "backup", so a valid
backup request falls through without invoking the export operation, contrary
to the claim and to the source's own doc comments. -/
theorem C1_backup_not_dispatched :
    validate backupReq = none ∧
    (function ⟨BodyOutcome.parsed backupReq, none, alwaysOk⟩).1 = ⟨200, ""⟩ ∧
    externalCalls (function ⟨BodyOutcome.parsed backupReq, none, alwaysOk⟩).2 = [] := by
  decide

/-- Claim C2, evaluated at the failing input: the action "backup" is accepted
by validate yet matches neither dispatch branch (the source cases are the
literals "back" and "restore"), so the silent fall-through branch IS reachable
for a validated request: the trace ends after client creation with no external
call, contrary to the claim. -/
theorem C2_fallthrough_reached :
    validate backupReq = none ∧
    backupReq.Action ≠ "back" ∧ backupReq.Action ≠ "restore" ∧
    (function ⟨BodyOutcome.parsed backupReq, none, alwaysOk⟩).2 =
      [Event.validateCall backupReq none, Event.clientCreate none] := by
  decide

/-- Claim C8, evaluated at the failing input: a validated backup request is
neither delegated to the external service (no export or import call appears
in the trace) nor aborted (the handler answers 200, not an error), refuting
the claimed dichotomy "fully delegated or aborted before any external
call". -/
theorem C8_validated_neither_delegated_nor_aborted :
    validate backupReq = none ∧
    externalCalls (function ⟨BodyOutcome.parsed backupReq, none, alwaysOk⟩).2 = [] ∧
    (function ⟨BodyOutcome.parsed backupReq, none, alwaysOk⟩).1.status = 200 := by
  decide

/-- Claim C9: the backup-specific bucket re-check of validate is dead code:
no request record makes validate return "bucket is required when action is
backup", because an empty bucket is already rejected by the earlier
unconditional bucket check. -/
theorem C9_bucket_recheck_unreachable (r : BackupRequest) :
    validate r ≠ some "bucket is required when action is backup" := by
  unfold validate
  split_ifs <;> simp_all

/-- Claim C3: a parsed request that passes validation with action "restore"
(and a successfully created client) leads to exactly one external call:
an import call whose resource name is projects/P/databases/(default), whose
input URI is gs://B/firestore-backup, and whose collection list is the
request's list unchanged. -/
theorem C3_restore_dispatch (r : BackupRequest) (c : FirestoreAdminClient)
    (hv : validate r = none) (ha : r.Action = "restore") :
    ∃ outcome,
      externalCalls (function ⟨BodyOutcome.parsed r, none, c⟩).2 =
        [Event.importCall
          ⟨databaseName r.ProjectId, r.Collections, storageUri r.Bucket⟩
          outcome] := by
  refine ⟨c.importOutcome
    ⟨databaseName r.ProjectId, r.Collections, storageUri r.Bucket⟩, ?_⟩
  simp only [function, hv, dispatch, ha, restore]
  cases hc : c.importOutcome
      ⟨databaseName r.ProjectId, r.Collections, storageUri r.Bucket⟩ <;>
    simp [externalCalls, isExternalCall, hc]

/-- A valid restore request used as the concrete input of witnesses. -/
def restoreReq : BackupRequest :=
  ⟨"restore", ["users", "orders"], "demo", "bkt"⟩

/-- Witness for C3 at a concrete valid restore request. -/
theorem C3_restore_dispatch_witness :
    ∃ outcome,
      externalCalls (function ⟨BodyOutcome.parsed restoreReq, none, alwaysOk⟩).2 =
        [Event.importCall
          ⟨databaseName restoreReq.ProjectId, restoreReq.Collections,
            storageUri restoreReq.Bucket⟩
          outcome] :=
  C3_restore_dispatch restoreReq alwaysOk (by decide) rfl

/-- Helper for C4: validate rejects a request missing project, bucket or
action with the message of the first failing check, in source order. -/
theorem validate_missing_field (r : BackupRequest)
    (h : r.ProjectId = "" ∨ r.Bucket = "" ∨ r.Action = "") :
    validate r = some (if r.ProjectId = "" then "project is required"
      else if r.Bucket = "" then "bucket is required"
      else "action is required") := by
  unfold validate
  rcases h with h | h | h <;> split_ifs <;> simp_all

/-- Claim C4: a parsed request whose project identifier, bucket or action is
empty gets a 400 response whose body names the first missing field in the
order project, bucket, action, and no external call is made. -/
theorem C4_missing_field_400 (r : BackupRequest) (ce : Option String)
    (c : FirestoreAdminClient)
    (h : r.ProjectId = "" ∨ r.Bucket = "" ∨ r.Action = "") :
    (function ⟨BodyOutcome.parsed r, ce, c⟩).1 =
      ⟨400, if r.ProjectId = "" then "project is required"
        else if r.Bucket = "" then "bucket is required"
        else "action is required"⟩ ∧
    externalCalls (function ⟨BodyOutcome.parsed r, ce, c⟩).2 = [] := by
  have hv := validate_missing_field r h
  simp [function, hv, externalCalls, isExternalCall]

/-- Witness for C4 at a concrete request with an empty project identifier. -/
theorem C4_missing_field_witness :
    (function ⟨BodyOutcome.parsed ⟨"backup", [], "", "b"⟩, none, alwaysOk⟩).1 =
      ⟨400, if ("" : String) = "" then "project is required"
        else if ("b" : String) = "" then "bucket is required"
        else "action is required"⟩ ∧
    externalCalls
      (function ⟨BodyOutcome.parsed ⟨"backup", [], "", "b"⟩, none, alwaysOk⟩).2 = [] :=
  C4_missing_field_400 ⟨"backup", [], "", "b"⟩ none alwaysOk (Or.inl rfl)

/-- Claim C5: a parsed request whose action is non-empty and neither "backup"
nor "restore" gets a 400 response with a non-empty message (whatever the
other fields hold, since the earlier presence checks also answer 400). -/
theorem C5_invalid_action_400 (r : BackupRequest) (ce : Option String)
    (c : FirestoreAdminClient)
    (h1 : r.Action ≠ "") (h2 : r.Action ≠ "backup") (h3 : r.Action ≠ "restore") :
    (function ⟨BodyOutcome.parsed r, ce, c⟩).1.status = 400 ∧
    (function ⟨BodyOutcome.parsed r, ce, c⟩).1.body ≠ "" := by
  by_cases hp : r.ProjectId = ""
  · simp [function, validate, hp]
  · by_cases hb : r.Bucket = "" <;>
      simp [function, validate, hp, hb, h1, h2, h3]

/-- Witness for C5 at a concrete request with the unrecognized action
"destroy". -/
theorem C5_invalid_action_witness :
    (function ⟨BodyOutcome.parsed ⟨"destroy", [], "p", "b"⟩, none, alwaysOk⟩).1.status = 400 ∧
    (function ⟨BodyOutcome.parsed ⟨"destroy", [], "p", "b"⟩, none, alwaysOk⟩).1.body ≠ "" :=
  C5_invalid_action_400 ⟨"destroy", [], "p", "b"⟩ none alwaysOk
    (by decide) (by decide) (by decide)

/-- Claim C6: when reading the body fails or the body does not unmarshal into
the request record, the handler answers 500 carrying the error text, and its
trace is empty: no validation and no external call took place. -/
theorem C6_body_failure_500 (i : HandlerInput) (e : String)
    (h : i.body = BodyOutcome.readErr e ∨ i.body = BodyOutcome.parseErr e) :
    (function i).1 = ⟨500, e⟩ ∧ (function i).2 = [] := by
  rcases h with h | h <;> simp [function, h]

/-- Witness for C6 at a concrete failed body read. -/
theorem C6_body_failure_witness :
    (function ⟨BodyOutcome.readErr "unexpected EOF", none, alwaysOk⟩).1 =
      ⟨500, "unexpected EOF"⟩ ∧
    (function ⟨BodyOutcome.readErr "unexpected EOF", none, alwaysOk⟩).2 = [] :=
  C6_body_failure_500 ⟨BodyOutcome.readErr "unexpected EOF", none, alwaysOk⟩
    "unexpected EOF" (Or.inl rfl)

/-- Claim C7: whenever the handler's trace contains an external call that
failed (at submission or while waiting), the response is a 500 whose body
ends in the underlying error text: every error wrapper of the source is a
fixed prefix in front of the underlying error. For a validated backup
request no external call occurs at all (the dispatch literal is "back"), so
the only inhabited cases are the restore paths and the statement covers
every request and every client behaviour. -/
theorem C7_failed_external_call_500 (i : HandlerInput) (ev : Event) (e : String)
    (hev : ev ∈ (function i).2) (he : failedCallError ev = some e) :
    (function i).1.status = 500 ∧ ∃ p, (function i).1.body = p ++ e := by
  obtain ⟨b, ce, c⟩ := i
  cases b with
  | readErr e2 => simp [function] at hev
  | parseErr e2 => simp [function] at hev
  | parsed req =>
    cases hv : validate req with
    | some msg =>
      simp [function, hv] at hev
      subst hev
      simp [failedCallError] at he
    | none =>
      cases ce with
      | some ec =>
        simp [function, hv] at hev
        rcases hev with hev | hev <;> subst hev <;> simp [failedCallError] at he
      | none =>
        by_cases hb : req.Action = "back"
        · cases ho : c.exportOutcome
              ⟨databaseName req.ProjectId, req.Collections, storageUri req.Bucket⟩ with
          | submitErr e2 =>
            simp [function, hv, dispatch, hb, backup, ho] at hev ⊢
            rcases hev with hev | hev | hev <;> subst hev <;>
              simp [failedCallError] at he
            subst he
            exact ⟨"error backing up firestore database: ", rfl⟩
          | waitErr e2 =>
            simp [function, hv, dispatch, hb, backup, ho] at hev ⊢
            rcases hev with hev | hev | hev <;> subst hev <;>
              simp [failedCallError] at he
            subst he
            exact ⟨"error backing up firestore database: ", rfl⟩
          | ok =>
            simp [function, hv, dispatch, hb, backup, ho] at hev
            rcases hev with hev | hev | hev <;> subst hev <;>
              simp [failedCallError] at he
        · by_cases hr : req.Action = "restore"
          · cases ho : c.importOutcome
                ⟨databaseName req.ProjectId, req.Collections, storageUri req.Bucket⟩ with
            | submitErr e2 =>
              simp [function, hv, dispatch, hb, hr, restore, ho] at hev ⊢
              rcases hev with hev | hev | hev <;> subst hev <;>
                simp [failedCallError] at he
              subst he
              exact ⟨"error restoring firestore database: ", rfl⟩
            | waitErr e2 =>
              simp [function, hv, dispatch, hb, hr, restore, ho] at hev ⊢
              rcases hev with hev | hev | hev <;> subst hev <;>
                simp [failedCallError] at he
              subst he
              exact ⟨"error backing up firestore database: ", rfl⟩
            | ok =>
              simp [function, hv, dispatch, hb, hr, restore, ho] at hev
              rcases hev with hev | hev | hev <;> subst hev <;>
                simp [failedCallError] at he
          · simp [function, hv, dispatch, hb, hr] at hev
            rcases hev with hev | hev <;> subst hev <;>
              simp [failedCallError] at he

/-- Witness for C7: a concrete restore request whose import submission fails
with "rpc error"; the failed call is in the trace and the response is a 500
whose body ends in "rpc error". -/
theorem C7_failed_external_call_witness :
    Event.importCall
        ⟨databaseName "demo", ["users", "orders"], storageUri "bkt"⟩
        (OpOutcome.submitErr "rpc error") ∈
      (function ⟨BodyOutcome.parsed restoreReq, none, failSubmit⟩).2 ∧
    ((function ⟨BodyOutcome.parsed restoreReq, none, failSubmit⟩).1.status = 500 ∧
      ∃ p, (function ⟨BodyOutcome.parsed restoreReq, none, failSubmit⟩).1.body =
        p ++ "rpc error") :=
  ⟨by decide,
    C7_failed_external_call_500 ⟨BodyOutcome.parsed restoreReq, none, failSubmit⟩
      (Event.importCall
        ⟨databaseName "demo", ["users", "orders"], storageUri "bkt"⟩
        (OpOutcome.submitErr "rpc error"))
      "rpc error" (by decide) rfl⟩

/-- Claim C10: a validated restore request whose import operation is
submitted successfully but whose wait for completion fails with error e gets
a 500 response whose body is the restore function's wait-failure wrapper:
"error backing up firestore database: " followed by e — the message says
"backing up" although the action performed was a restore (src/function.go
line 114). -/
theorem C10_restore_wait_error_says_backing_up (r : BackupRequest)
    (c : FirestoreAdminClient) (e : String)
    (hv : validate r = none) (ha : r.Action = "restore")
    (hw : c.importOutcome
        ⟨databaseName r.ProjectId, r.Collections, storageUri r.Bucket⟩ =
      OpOutcome.waitErr e) :
    (function ⟨BodyOutcome.parsed r, none, c⟩).1 =
      ⟨500, "error backing up firestore database: " ++ e⟩ := by
  simp [function, hv, dispatch, ha, restore, hw]

/-- Witness for C10: a concrete restore request on a client whose waits fail
with "deadline exceeded". -/
theorem C10_restore_wait_error_witness :
    (function ⟨BodyOutcome.parsed restoreReq, none, failWait⟩).1 =
      ⟨500, "error backing up firestore database: " ++ "deadline exceeded"⟩ :=
  C10_restore_wait_error_says_backing_up restoreReq failWait "deadline exceeded"
    (by decide) rfl rfl

end FirestoreBackup
